import Mathlib

/-
Verification of the phoneme alignment and scoring engine of the
ai-speaking-evaluator repository.  All definitions below are a shallow
embedding of src/pronunciation/pronunciation_metrics.py: Python floats are
modelled as exact rationals (the scores involved are 0, 0.8, 1.0 and small
sums of those; at every concrete input used in a theorem the branch
comparisons are strict, so the rational model follows the float execution),
Python lists as Lean lists, and Python exceptions (IndexError from list or
numpy indexing) as explicit error outcomes.  Negative Python indices keep
their wrap-around semantics, because the backtracking loop of
align_sequences can reach them.
-/

namespace PronMetrics

/-- The IPA_TO_CMU mapping table of the module, as an association list
(every key is distinct, so lookup agrees with the Python dict). -/
def IPA_TO_CMU : List (String × String) :=
  [("f", "F"), ("ð", "DH"), ("æ", "AE"), ("ʈ", "T"), ("ɛ", "EH"),
   ("ɲ", "N"), ("ŋ", "NG"), ("ɡ", "G"), ("ʃ", "SH"), ("ʊ", "UH"),
   ("ʉː", "UW"), ("aj", "AY"), ("spn", "UNK"), ("a", "AA"), ("i", "IY"),
   ("h", "HH"), ("n", "N"), ("d", "D"), ("z", "Z"), ("t", "T"),
   ("m", "M"), ("v", "V")]

/-- The canonical (mapped) symbols: the values of IPA_TO_CMU. -/
def cmu_values : List String := IPA_TO_CMU.map Prod.snd

/-- Python str.upper() on the character content of a string (each
character upper-cased independently; for the ASCII letters the phoneme
alphabets use this is exactly CPython's behaviour). -/
def pyUpper (s : String) : String :=
  String.mk (s.toList.map Char.toUpper)

/-- Python str.strip(): remove leading and trailing whitespace. -/
def pyStrip (s : String) : String :=
  String.mk
    (((s.toList.dropWhile Char.isWhitespace).reverse.dropWhile
        Char.isWhitespace).reverse)

/-- convert_ipa_to_cmu: dictionary lookup with upper-cased fallback. -/
def convert_ipa_to_cmu (ipa_phoneme : String) : String :=
  (IPA_TO_CMU.find? (fun e => e.1 == ipa_phoneme)).elim
    (pyUpper ipa_phoneme) (fun e => e.2)

/-- strip_stress_markers: the Python source keeps exactly the characters
that are not digits, wherever they occur in the token
(join of c for c in phoneme if not c.isdigit()). -/
def strip_stress_markers (phoneme : String) : String :=
  String.mk (phoneme.toList.filter (fun c => !c.isDigit))

/-- The confusable-class table hard-coded in get_alignment_score. -/
def confusable : List String := ["AA", "AO", "AH"]

/-- get_alignment_score: 1.0 when the stress-stripped upper-cased forms are
equal; else 0.8 when the RAW inputs p1 and p2 both lie in the confusable
list (the source tests p1 and p2 themselves, not their canonical forms);
else 0.0. -/
def get_alignment_score (p1 p2 : String) : ℚ :=
  if strip_stress_markers (pyUpper p1) = strip_stress_markers (pyUpper p2) then 1
  else if p1 ∈ confusable ∧ p2 ∈ confusable then 4/5
  else 0

/-- Row i+1 of the dp score matrix of align_sequences, computed from row i
(prev): column 0 is the gap-penalty border (i+1) * 0.8, and the inner
cells combine the diagonal (prev j), up (prev (j+1)) and left (the cell
just computed in this row) moves exactly in the branch order of the
source's fill loop, which writes the matrix row by row. -/
def dpRowF (a r : List String) (i : ℕ) (prev : ℕ → ℚ) : ℕ → ℚ
  | 0 => ((i : ℚ) + 1) * (4/5)
  | j + 1 =>
    let ms := get_alignment_score (a.getD i "") (r.getD j "")
    let diag := prev j + (if ms > 7/10 then 0 else 1)
    let up := prev (j + 1) + 4/5
    let left := dpRowF a r i prev j + 4/5
    if diag ≤ up ∧ diag ≤ left then diag
    else if up ≤ left then up
    else left

/-- The dp score matrix of align_sequences as a function of the cell
indices: row 0 is the gap-penalty border j * 0.8, and each later row is
filled from its predecessor by dpRowF, as the source's row-major fill loop
does. -/
def dp (a r : List String) : ℕ → ℕ → ℚ
  | 0 => fun j => (j : ℚ) * (4/5)
  | i + 1 => dpRowF a r i (dp a r i)

/-- The backpointer matrix of align_sequences.  np.zeros initialises every
entry to 0, and the fill loop only writes the cells with i, j ≥ 1, choosing
0 (diagonal), 1 (gap in reference) or 2 (gap in actual) with the same
branch conditions as dp. -/
def bp (a r : List String) (i j : ℕ) : ℕ :=
  if i = 0 ∨ j = 0 then 0
  else
    let ms := get_alignment_score (a.getD (i - 1) "") (r.getD (j - 1) "")
    let diag := dp a r (i - 1) (j - 1) + (if ms > 7/10 then 0 else 1)
    let up := dp a r (i - 1) j + 4/5
    let left := dp a r i (j - 1) + 4/5
    if diag ≤ up ∧ diag ≤ left then 0
    else if up ≤ left then 1
    else 2

/-- Python / numpy index resolution on an axis of the given size: an index
k is valid when -size ≤ k < size, and a negative index wraps to k + size. -/
def npWrap (size : ℕ) (k : ℤ) : Option ℕ :=
  if 0 ≤ k ∧ k < (size : ℤ) then some k.toNat
  else if -(size : ℤ) ≤ k ∧ k < 0 then some (k + size).toNat
  else none

/-- Reading bp[i, j] with numpy semantics (the matrix has
(len(actual)+1) rows and (len(reference)+1) columns); none models the
IndexError numpy raises on an out-of-range index. -/
def npBp (a r : List String) (i j : ℤ) : Option ℕ :=
  (npWrap (a.length + 1) i).bind (fun wi =>
    (npWrap (r.length + 1) j).map (fun wj => bp a r wi wj))

/-- Reading l[k] on a Python list, including negative-index wrap-around;
none models IndexError. -/
def pyIndex (l : List String) (k : ℤ) : Option String :=
  (npWrap l.length k).map (fun w => l.getD w "")

/-- One aligned pair, tagged with the branch of the backtracking loop that
produced it: diag is the match/substitution branch, insGap the gap-in-
reference branch (observed symbol unmatched), delGap the gap-in-actual
branch (reference symbol unmatched). -/
inductive AlignedPair where
  | diag (a r : String) (s : ℚ)
  | insGap (a : String)
  | delGap (r : String)
deriving DecidableEq

/-- The (actual, reference, score) tuple the source actually stores for an
aligned pair; gaps are stored with the "GAP" sentinel string and score
0.0, as in the code. -/
def toTuple : AlignedPair → String × String × ℚ
  | .diag a r s => (a, r, s)
  | .insGap a => (a, "GAP", 0)
  | .delGap r => ("GAP", r, 0)

/-- Outcome of running a piece of the Python code: a normal return, an
IndexError escaping it, or exhaustion of the step budget of the model
(never reached with the budget align_tagged supplies). -/
inductive PyResult (α : Type) where
  | ok (val : α)
  | indexError
  | outOfFuel
deriving DecidableEq

/-- The backtracking while-loop of align_sequences, one constructor-tagged
pair per iteration, prepended to acc (which therefore ends up in the
left-to-right order the source restores with reversed()).  The branch
structure, short-circuit evaluation and every list / matrix read follow
the source: in particular when i > 0 and j ≤ 0 the first branch fails on
j > 0, the second reads bp[i, j] with numpy wrap-around, and the final
else branch reads reference[j-1] with Python wrap-around — the reads that
can raise IndexError. -/
def backtrackLoop (a r : List String) :
    ℕ → ℤ → ℤ → List AlignedPair → PyResult (List AlignedPair)
  | 0, _, _, _ => .outOfFuel
  | fuel + 1, i, j, acc =>
    if i > 0 ∨ j > 0 then
      if i > 0 ∧ j > 0 ∧ npBp a r i j = some 0 then
        let x := a.getD (i - 1).toNat ""
        let y := r.getD (j - 1).toNat ""
        backtrackLoop a r fuel (i - 1) (j - 1)
          (.diag x y (get_alignment_score x y) :: acc)
      else if i > 0 then
        if npBp a r i j = none then .indexError
        else if npBp a r i j = some 1 then
          backtrackLoop a r fuel (i - 1) j
            (.insGap (a.getD (i - 1).toNat "") :: acc)
        else
          (pyIndex r (j - 1)).elim .indexError
            (fun y => backtrackLoop a r fuel i (j - 1) (.delGap y :: acc))
      else
        (pyIndex r (j - 1)).elim .indexError
          (fun y => backtrackLoop a r fuel i (j - 1) (.delGap y :: acc))
    else .ok acc

/-- align_sequences with branch tags kept.  The loop runs at most
n + 2m + 1 iterations before it exits or raises (each iteration strictly
decreases i.toNat + (j + m + 1).toNat, which starts at n + 2m + 1), so the
budget n + 2m + 2 is never exhausted and outOfFuel is unreachable. -/
def align_tagged (actual reference : List String) : PyResult (List AlignedPair) :=
  backtrackLoop actual reference
    (actual.length + 2 * reference.length + 2)
    (actual.length : ℤ) (reference.length : ℤ) []

/-- Erasure of a tagged backtracking outcome to the tuple lists the source
returns (errors pass through). -/
def eraseResult : PyResult (List AlignedPair) → PyResult (List (String × String × ℚ))
  | .ok l => .ok (l.map toTuple)
  | .indexError => .indexError
  | .outOfFuel => .outOfFuel

/-- align_sequences as in the source: the tagged alignment erased to the
(actual, reference, score) tuples it returns. -/
def align_sequences (actual reference : List String) :
    PyResult (List (String × String × ℚ)) :=
  eraseResult (align_tagged actual reference)

/-- One per-position record of analyze_pronunciation.  The Python dict key
"match" is a Lean keyword, so the field is called matched. -/
structure MatchRecord where
  actual : String
  reference : String
  matched : Bool
  score : ℚ
deriving DecidableEq

/-- The record built for one aligned tuple: gaps are displayed as "---",
and the match flag is actual != "GAP" and ref != "GAP" and score > 0.7,
tested on the raw tuple entries. -/
def mkRecord (t : String × String × ℚ) : MatchRecord :=
  { actual := if t.1 ≠ "GAP" then t.1 else "---"
    reference := if t.2.1 ≠ "GAP" then t.2.1 else "---"
    matched := (!(t.1 == "GAP")) && (!(t.2.1 == "GAP")) && decide (t.2.2 > 7/10)
    score := t.2.2 }

/-- The matches list comprehension of analyze_pronunciation. -/
def mkMatches (aligned : List (String × String × ℚ)) : List MatchRecord :=
  aligned.map mkRecord

/-- The valid_matches filter: records whose displayed sides are both not
the "---" placeholder. -/
def valid_matches (ms : List MatchRecord) : List MatchRecord :=
  ms.filter (fun m => (!(m.actual == "---")) && (!(m.reference == "---")))

/-- The overall score of analyze_pronunciation: sum of the valid records'
scores divided by their count, or 0 when there is no valid record. -/
def overall_score (ms : List MatchRecord) : ℚ :=
  let valid := valid_matches ms
  if valid = [] then 0
  else (valid.map MatchRecord.score).sum / (valid.length : ℚ)

/-- Scoring applied to an alignment outcome: build the records and the
overall score from a returned alignment; errors pass through. -/
def scoreResult : PyResult (List (String × String × ℚ)) →
    PyResult (ℚ × List MatchRecord)
  | .ok aligned => .ok (overall_score (mkMatches aligned), mkMatches aligned)
  | .indexError => .indexError
  | .outOfFuel => .outOfFuel

/-- The pure core of analyze_pronunciation, taking the already extracted
and converted observed phonemes: align, build the records, score.  An
IndexError escaping align_sequences propagates (analyze_pronunciation has
no handler). -/
def analyze_core (actual_phones reference : List String) :
    PyResult (ℚ × List MatchRecord) :=
  scoreResult (align_sequences actual_phones reference)

/-- A labelled time interval of a TextGrid tier. -/
structure Interval where
  mark : String
  minTime : ℚ
  maxTime : ℚ
deriving DecidableEq

/-- A named TextGrid tier. -/
structure Tier where
  name : String
  intervals : List Interval
deriving DecidableEq

/-- An already-parsed TextGrid: its list of tiers (parsing the file is an
external collaborator's job and is not part of this core). -/
structure TextGrid where
  tiers : List Tier
deriving DecidableEq

/-- One extracted phoneme record of extract_phonemes_from_textgrid.  The
Python dict key "end" is a Lean keyword, so the field is called stop. -/
structure PhonemeRec where
  text : String
  start : ℚ
  stop : ℚ
deriving DecidableEq

/-- The body of the try block of extract_phonemes_from_textgrid:
[t for t in tg.tiers if t.name == tier_name][0] raises IndexError when no
tier matches (modelled as the error case); otherwise every interval whose
mark is non-blank after stripping is kept, carrying its RAW (untrimmed)
mark and its times.  No duration check is performed. -/
def extract_body (tg : TextGrid) (tier_name : String) :
    Except String (List PhonemeRec) :=
  ((tg.tiers.filter (fun t => t.name == tier_name)).head?).elim
    (.error "list index out of range")
    (fun tier =>
      .ok ((tier.intervals.filter (fun iv => !((pyStrip iv.mark) == ""))).map
        (fun iv => { text := iv.mark, start := iv.minTime, stop := iv.maxTime })))

/-- The blanket except handler of extract_phonemes_from_textgrid: a normal
result passes through, any exception is swallowed and replaced by the
empty list. -/
def exceptCatch : Except String (List PhonemeRec) → List PhonemeRec
  | .ok r => r
  | .error _ => []

/-- extract_phonemes_from_textgrid: the try/except around the body catches
every exception, prints it, and returns the empty list. -/
def extract_phonemes_from_textgrid (tg : TextGrid) (tier_name : String) :
    List PhonemeRec :=
  exceptCatch (extract_body tg tier_name)

/-- Similarity as the SPEC words it (for the refinement comparison of
claim C4): the confusable-class membership is tested on the canonical
forms strip_markers(upper(a)) and strip_markers(upper(b)), not on the raw
symbols. -/
def similarity_spec (a b : String) : ℚ :=
  let ca := strip_stress_markers (pyUpper a)
  let cb := strip_stress_markers (pyUpper b)
  if ca = cb then 1
  else if ca ∈ confusable ∧ cb ∈ confusable then 4/5
  else 0

/-- strip_markers as the SPEC words it (for the refinement comparison of
claim C8): remove exactly the trailing digits, leaving every other
character, non-trailing digits included, unchanged. -/
def strip_markers_spec (p : String) : String :=
  String.mk ((p.toList.reverse.dropWhile Char.isDigit).reverse)

/-- The similarity score carried by a match/substitution pair, none for a
gap pair. -/
def diagScore? : AlignedPair → Option ℚ
  | .diag _ _ s => some s
  | .insGap _ => none
  | .delGap _ => none

/-- The similarity scores of the match/substitution pairs of a tagged
alignment, in order. -/
def diag_scores (pairs : List AlignedPair) : List ℚ :=
  pairs.filterMap diagScore?

/-- The overall score as the SPEC words it (for the refinement comparison
of claim C5): the arithmetic mean of the similarity scores of the
match/substitution pairs, 0 when there are none. -/
def score_spec (pairs : List AlignedPair) : ℚ :=
  let ss := diag_scores pairs
  if ss = [] then 0 else ss.sum / (ss.length : ℚ)

/-- The extraction adapter as the SPEC words it (for the refinement
comparison of claim C9): fail when no tier matches, skip blank-label AND
zero-duration intervals, and emit the TRIMMED label text. -/
def extract_spec (tg : TextGrid) (tier_name : String) :
    Option (List String) :=
  ((tg.tiers.filter (fun t => t.name == tier_name)).head?).map
    (fun tier =>
      (tier.intervals.filter
          (fun iv => (!((pyStrip iv.mark) == "")) && (!(iv.minTime == iv.maxTime)))).map
        (fun iv => (pyStrip iv.mark)))

/-- A pair contains no sentinel collision: its symbols are distinct from
the literal strings "GAP" and "---" that the scorer uses as gap sentinel
and placeholder.  Gap pairs need no condition, because their record always
shows "---" on the gap side and is excluded from valid_matches whatever
the surviving symbol is. -/
def pairNoSentinel : AlignedPair → Bool
  | .diag a r _ =>
    (!(a == "GAP")) && (!(a == "---")) && (!(r == "GAP")) && (!(r == "---"))
  | _ => true

/-- A TextGrid whose only tier is named "words": no tier is named
"phones". -/
def tgNoPhones : TextGrid :=
  ⟨[⟨"words", [⟨"hello", 0, 1⟩]⟩]⟩

/-- A TextGrid whose "phones" tier holds a single zero-duration interval
with surrounding whitespace in its label. -/
def tgMessy : TextGrid :=
  ⟨[⟨"phones", [⟨" AH ", 0, 0⟩]⟩]⟩

/-- A TextGrid with a "phones" tier holding one labelled interval and one
whitespace-only interval. -/
def tgPhones : TextGrid :=
  ⟨[⟨"phones", [⟨"AH1", 0, 1⟩, ⟨" ", 1, 2⟩]⟩]⟩

/-- C1: the completeness invariant fails on the code.  At observed
["B", "A"] against reference ["A"] the optimal trace ends with a diagonal
step into cell (1, 0); the backtracking loop has no guard for i > 0 with
j = 0, falls into the gap-in-actual branch, consumes reference[-1] and
reference[-2] by Python wrap-around, and raises IndexError at
reference[-3] — no alignment covering the inputs is returned at all. -/
theorem claim_C1_backtrack_crash :
    align_sequences ["B", "A"] ["A"] = .indexError := by
  norm_num +decide [align_sequences, align_tagged, backtrackLoop, eraseResult,
    scoreResult, analyze_core, npBp, npWrap, bp, dp, dpRowF,
    get_alignment_score, strip_stress_markers, pyUpper, pyStrip, confusable,
    pyIndex, toTuple, Option.bind, Option.map, Option.elim, Option.getD,
    List.getD, List.get?, List.filter_cons, List.filter_nil, mkMatches,
    mkRecord, valid_matches, overall_score, score_spec, diag_scores,
    diagScore?, List.filterMap_cons, List.filterMap_nil, similarity_spec, extract_body, exceptCatch,
    extract_phonemes_from_textgrid, extract_spec, tgNoPhones, tgMessy,
    tgPhones]

/-- C2: a non-empty observed sequence against an empty reference does not
yield an all-insertions alignment: the backtracking loop immediately takes
the gap-in-actual branch (bp[i, 0] = 0 is neither guarded nor equal to 1)
and raises IndexError reading reference[-1] of the empty list.  The
opposite direction (empty observed, non-empty reference) does behave as
the claim says: all deletions, overall score 0. -/
theorem claim_C2_empty_reference_crash :
    align_sequences ["F"] [] = .indexError ∧
    align_tagged [] ["AE", "T"] = .ok [.delGap "AE", .delGap "T"] ∧
    analyze_core [] ["AE", "T"] =
      .ok (0, [⟨"---", "AE", false, 0⟩, ⟨"---", "T", false, 0⟩]) := by
  norm_num +decide [align_sequences, align_tagged, backtrackLoop, eraseResult,
    scoreResult, analyze_core, npBp, npWrap, bp, dp, dpRowF,
    get_alignment_score, strip_stress_markers, pyUpper, pyStrip, confusable,
    pyIndex, toTuple, Option.bind, Option.map, Option.elim, Option.getD,
    List.getD, List.get?, List.filter_cons, List.filter_nil, mkMatches,
    mkRecord, valid_matches, overall_score, score_spec, diag_scores,
    diagScore?, List.filterMap_cons, List.filterMap_nil, similarity_spec, extract_body, exceptCatch,
    extract_phonemes_from_textgrid, extract_spec, tgNoPhones, tgMessy,
    tgPhones]

/-- C3 counterexample: on a TextGrid with no tier named "phones" the
extraction does NOT fail: the internal IndexError from the [0] lookup is
caught by the blanket except handler and the function returns the empty
list as an ordinary value. -/
theorem claim_C3_counterexample :
    extract_phonemes_from_textgrid tgNoPhones "phones" = [] ∧
    extract_body tgNoPhones "phones" = .error "list index out of range" := by
  norm_num +decide [align_sequences, align_tagged, backtrackLoop, eraseResult,
    scoreResult, analyze_core, npBp, npWrap, bp, dp, dpRowF,
    get_alignment_score, strip_stress_markers, pyUpper, pyStrip, confusable,
    pyIndex, toTuple, Option.bind, Option.map, Option.elim, Option.getD,
    List.getD, List.get?, List.filter_cons, List.filter_nil, mkMatches,
    mkRecord, valid_matches, overall_score, score_spec, diag_scores,
    diagScore?, List.filterMap_cons, List.filterMap_nil, similarity_spec, extract_body, exceptCatch,
    extract_phonemes_from_textgrid, extract_spec, tgNoPhones, tgMessy,
    tgPhones]

/-- C4 counterexample: the confusable-class test is applied to the raw
symbols, not the canonical forms.  For a = "aa" and b = "AO" the canonical
forms "AA" and "AO" are both in the class, so the spec formula gives 0.8,
but the code returns 0.0 because the raw "aa" is not in the list. -/
theorem claim_C4_counterexample :
    get_alignment_score "aa" "AO" = 0 ∧ similarity_spec "aa" "AO" = 4/5 := by
  norm_num +decide [align_sequences, align_tagged, backtrackLoop, eraseResult,
    scoreResult, analyze_core, npBp, npWrap, bp, dp, dpRowF,
    get_alignment_score, strip_stress_markers, pyUpper, pyStrip, confusable,
    pyIndex, toTuple, Option.bind, Option.map, Option.elim, Option.getD,
    List.getD, List.get?, List.filter_cons, List.filter_nil, mkMatches,
    mkRecord, valid_matches, overall_score, score_spec, diag_scores,
    diagScore?, List.filterMap_cons, List.filterMap_nil, similarity_spec, extract_body, exceptCatch,
    extract_phonemes_from_textgrid, extract_spec, tgNoPhones, tgMessy,
    tgPhones]

/-- C5 counterexample: a literal phoneme "GAP" collides with the gap
sentinel.  Aligning ["GAP"] with ["GAP"] produces one match/substitution
pair of similarity 1.0, so the claimed mean is 1, but the scorer masks
both sides to "---", excludes the pair from valid_matches, and reports
overall score 0. -/
theorem claim_C5_counterexample :
    align_tagged ["GAP"] ["GAP"] = .ok [.diag "GAP" "GAP" 1] ∧
    analyze_core ["GAP"] ["GAP"] = .ok (0, [⟨"---", "---", false, 1⟩]) ∧
    score_spec [.diag "GAP" "GAP" 1] = 1 := by
  norm_num +decide [align_sequences, align_tagged, backtrackLoop, eraseResult,
    scoreResult, analyze_core, npBp, npWrap, bp, dp, dpRowF,
    get_alignment_score, strip_stress_markers, pyUpper, pyStrip, confusable,
    pyIndex, toTuple, Option.bind, Option.map, Option.elim, Option.getD,
    List.getD, List.get?, List.filter_cons, List.filter_nil, mkMatches,
    mkRecord, valid_matches, overall_score, score_spec, diag_scores,
    diagScore?, List.filterMap_cons, List.filterMap_nil, similarity_spec, extract_body, exceptCatch,
    extract_phonemes_from_textgrid, extract_spec, tgNoPhones, tgMessy,
    tgPhones]

/-- C7 counterexample: aligning ["GAP"] with ["GAP0"] yields a
match/substitution pair of similarity 1.0 (the stress-stripped forms are
equal), yet its record carries match flag false, because the raw observed
symbol equals the "GAP" sentinel. -/
theorem claim_C7_counterexample :
    align_tagged ["GAP"] ["GAP0"] = .ok [.diag "GAP" "GAP0" 1] ∧
    mkRecord (toTuple (.diag "GAP" "GAP0" 1)) = ⟨"---", "GAP0", false, 1⟩ := by
  norm_num +decide [align_sequences, align_tagged, backtrackLoop, eraseResult,
    scoreResult, analyze_core, npBp, npWrap, bp, dp, dpRowF,
    get_alignment_score, strip_stress_markers, pyUpper, pyStrip, confusable,
    pyIndex, toTuple, Option.bind, Option.map, Option.elim, Option.getD,
    List.getD, List.get?, List.filter_cons, List.filter_nil, mkMatches,
    mkRecord, valid_matches, overall_score, score_spec, diag_scores,
    diagScore?, List.filterMap_cons, List.filterMap_nil, similarity_spec, extract_body, exceptCatch,
    extract_phonemes_from_textgrid, extract_spec, tgNoPhones, tgMessy,
    tgPhones]

/-- C8 counterexample: strip_stress_markers removes every digit, not just
trailing ones.  "A1B" has no trailing digit, so the spec version leaves it
unchanged, but the code deletes the interior digit. -/
theorem claim_C8_counterexample :
    strip_stress_markers "A1B" = "AB" ∧ strip_markers_spec "A1B" = "A1B" := by
  decide

/-- C9 counterexample: on a tier holding the single zero-duration interval
labelled " AH ", the code keeps the interval (no duration check) and
emits its raw, untrimmed label, while the spec's adapter would drop the
interval (zero duration) and would emit trimmed labels. -/
theorem claim_C9_counterexample :
    extract_phonemes_from_textgrid tgMessy "phones" = [⟨" AH ", 0, 0⟩] ∧
    extract_spec tgMessy "phones" = some [] := by
  decide

/-- C3 (amended): when no tier of the annotation bears the requested name,
extract_phonemes_from_textgrid does not raise: the internal lookup raises
a plain IndexError ("list index out of range", not a NotFoundError), the
blanket except handler swallows it, and the function returns the empty
list as an ordinary value. -/
theorem claim_C3_amended (tg : TextGrid) (tier_name : String)
    (h : ∀ t ∈ tg.tiers, t.name ≠ tier_name) :
    extract_phonemes_from_textgrid tg tier_name = [] ∧
    extract_body tg tier_name = .error "list index out of range" := by
  have hf : tg.tiers.filter (fun t => t.name == tier_name) = [] := by
    rw [List.filter_eq_nil_iff]
    intro t ht
    simpa using h t ht
  refine ⟨?_, ?_⟩
  · simp [extract_phonemes_from_textgrid, extract_body, hf, exceptCatch]
  · simp [extract_body, hf]

/-- Witness for C3 (amended) at the concrete TextGrid with a single
"words" tier. -/
theorem claim_C3_witness :
    extract_phonemes_from_textgrid tgNoPhones "phones" = [] ∧
    extract_body tgNoPhones "phones" = .error "list index out of range" :=
  claim_C3_amended tgNoPhones "phones" (by decide)

/-- C4 (amended): the similarity value always lies in [0, 1]; it equals
1.0 exactly when the canonical forms strip_markers(upper a) and
strip_markers(upper b) are equal; and, when they differ, it equals 0.8
exactly when the RAW symbols a and b (not their canonical forms) both lie
in the confusable class, else it is 0. -/
theorem claim_C4_amended (a b : String) :
    (0 ≤ get_alignment_score a b ∧ get_alignment_score a b ≤ 1) ∧
    (get_alignment_score a b = 1 ↔
      strip_stress_markers (pyUpper a) = strip_stress_markers (pyUpper b)) ∧
    (strip_stress_markers (pyUpper a) ≠ strip_stress_markers (pyUpper b) →
      (get_alignment_score a b = 4/5 ↔ a ∈ confusable ∧ b ∈ confusable)) := by
  unfold get_alignment_score
  split_ifs with h1 h2 <;> norm_num <;> tauto

/-- Witness for C4 (amended): "AA" and "AO" have distinct canonical forms
and are both raw members of the confusable class, so their similarity is
0.8. -/
theorem claim_C4_witness : get_alignment_score "AA" "AO" = 4/5 := by
  have h := (claim_C4_amended "AA" "AO").2.2 (by decide)
  exact h.mpr (by decide)

/-- C7 (amended): a record with match flag true always comes from a
match/substitution pair of score above 0.7 whose two symbols are both
present (neither side is a gap entry); conversely a match/substitution
pair of similarity 1.0 is reported with match flag true PROVIDED neither
of its raw symbols is the literal sentinel string "GAP" (the
counterexample shows the unrestricted converse is false). -/
theorem claim_C7_amended (p : AlignedPair) :
    ((mkRecord (toTuple p)).matched = true →
      ∃ a r s, p = .diag a r s ∧ s > 7/10 ∧ a ≠ "GAP" ∧ r ≠ "GAP") ∧
    (∀ a r, p = .diag a r 1 → a ≠ "GAP" → r ≠ "GAP" →
      (mkRecord (toTuple p)).matched = true) := by
  cases p with
  | diag a r s =>
    constructor
    · intro h
      simp only [mkRecord, toTuple, Bool.and_eq_true, bne_iff_ne,
        decide_eq_true_eq, Bool.not_eq_true', beq_eq_false_iff_ne] at h
      exact ⟨a, r, s, rfl, h.2, h.1.1, h.1.2⟩
    · intro a' r' heq ha hr
      obtain ⟨rfl, rfl, rfl⟩ := AlignedPair.diag.injEq .. |>.mp heq
      simp only [mkRecord, toTuple, Bool.and_eq_true, Bool.not_eq_true',
        beq_eq_false_iff_ne, decide_eq_true_eq]
      refine ⟨⟨ha, hr⟩, by norm_num⟩
  | insGap a =>
    constructor
    · intro h
      simp [mkRecord, toTuple] at h
    · intro a' r' heq
      cases heq
  | delGap r =>
    constructor
    · intro h
      simp [mkRecord, toTuple] at h
    · intro a' r' heq
      cases heq

/-- Witness for C7 (amended): the identity pair on "AE" with similarity
1.0 is reported as a match. -/
theorem claim_C7_witness :
    (mkRecord (toTuple (.diag "AE" "AE" 1))).matched = true :=
  (claim_C7_amended (.diag "AE" "AE" 1)).2 "AE" "AE" rfl (by decide) (by decide)

/-- C9 (amended): when a tier is found (first match among the tiers with
the requested name), the extraction emits, in time order, one record per
interval whose label is non-blank after stripping, carrying the RAW
(untrimmed) label and the interval's times; zero-duration intervals are
not filtered out.  Every emitted record has a non-blank label. -/
theorem claim_C9_amended (tg : TextGrid) (tier_name : String) (tier : Tier)
    (h : (tg.tiers.filter (fun t => t.name == tier_name)).head? = some tier) :
    extract_phonemes_from_textgrid tg tier_name =
      (tier.intervals.filter (fun iv => !((pyStrip iv.mark) == ""))).map
        (fun iv => ⟨iv.mark, iv.minTime, iv.maxTime⟩) ∧
    ∀ pr ∈ extract_phonemes_from_textgrid tg tier_name,
      pyStrip pr.text ≠ "" := by
  have hbody : extract_phonemes_from_textgrid tg tier_name =
      (tier.intervals.filter (fun iv => !((pyStrip iv.mark) == ""))).map
        (fun iv => ⟨iv.mark, iv.minTime, iv.maxTime⟩) := by
    unfold extract_phonemes_from_textgrid extract_body
    rw [h]
    rfl
  refine ⟨hbody, ?_⟩
  intro pr hpr
  rw [hbody] at hpr
  obtain ⟨iv, hiv, rfl⟩ := List.mem_map.mp hpr
  have hmem := (List.mem_filter.mp hiv).2
  simpa using hmem

/-- Witness for C9 (amended) at a concrete two-interval "phones" tier. -/
theorem claim_C9_witness :
    extract_phonemes_from_textgrid tgPhones "phones" =
      (((⟨"phones", [⟨"AH1", 0, 1⟩, ⟨" ", 1, 2⟩]⟩ : Tier)).intervals.filter
          (fun iv => !((pyStrip iv.mark) == ""))).map
        (fun iv => ⟨iv.mark, iv.minTime, iv.maxTime⟩) ∧
    ∀ pr ∈ extract_phonemes_from_textgrid tgPhones "phones",
      pyStrip pr.text ≠ "" :=
  claim_C9_amended tgPhones "phones" ⟨"phones", [⟨"AH1", 0, 1⟩, ⟨" ", 1, 2⟩]⟩ rfl

/-- C10: the similarity function is commutative, and its value is always
one of 0, 0.8 and 1 — never any other number of [0, 1]. -/
theorem claim_C10_symmetry_range (a b : String) :
    get_alignment_score a b = get_alignment_score b a ∧
    (get_alignment_score a b = 0 ∨ get_alignment_score a b = 4/5 ∨
      get_alignment_score a b = 1) := by
  constructor
  · unfold get_alignment_score
    by_cases h1 : strip_stress_markers (pyUpper a) = strip_stress_markers (pyUpper b)
    · rw [if_pos h1, if_pos h1.symm]
    · by_cases h2 : a ∈ confusable ∧ b ∈ confusable
      · rw [if_neg h1, if_pos h2, if_neg (Ne.symm h1), if_pos ⟨h2.2, h2.1⟩]
      · rw [if_neg h1, if_neg h2, if_neg (Ne.symm h1),
          if_neg (fun h : b ∈ confusable ∧ a ∈ confusable => h2 ⟨h.2, h.1⟩)]
  · unfold get_alignment_score
    split_ifs <;> norm_num

/-- C8 (amended): strip_stress_markers removes EVERY digit character of
the token, wherever it occurs (not only trailing ones): no digit survives
in its output, and it agrees with the spec's trailing-digit removal
exactly on tokens whose digits all sit in the trailing run — the shape of
every real stress-marked symbol.  Being a pure function, it never mutates
its argument. -/
theorem claim_C8_amended (p : String) :
    (strip_stress_markers p).toList.all (fun c => !c.isDigit) = true ∧
    ((p.toList.reverse.dropWhile Char.isDigit).all (fun c => !c.isDigit) = true →
      strip_stress_markers p = strip_markers_spec p) := by
  constructor
  · rw [List.all_eq_true]
    intro c hc
    have hmem : c ∈ p.toList.filter (fun x => !x.isDigit) := by
      simpa [strip_stress_markers] using hc
    exact (List.mem_filter.mp hmem).2
  · intro h
    unfold strip_stress_markers strip_markers_spec
    congr 1
    have h1 : p.toList.filter (fun c => !c.isDigit) =
        (p.toList.reverse.filter (fun c => !c.isDigit)).reverse := by
      rw [List.filter_reverse, List.reverse_reverse]
    have h2 : p.toList.reverse.filter (fun c => !c.isDigit) =
        p.toList.reverse.dropWhile Char.isDigit := by
      conv_lhs =>
        rw [← List.takeWhile_append_dropWhile Char.isDigit p.toList.reverse]
      rw [List.filter_append]
      have ht : (p.toList.reverse.takeWhile Char.isDigit).filter
          (fun c => !c.isDigit) = [] := by
        rw [List.filter_eq_nil_iff]
        intro c hc
        have hd := List.mem_takeWhile_imp hc
        simp [hd]
      have hs : (p.toList.reverse.dropWhile Char.isDigit).filter
          (fun c => !c.isDigit) = p.toList.reverse.dropWhile Char.isDigit := by
        rw [List.filter_eq_self]
        intro c hc
        exact List.all_eq_true.mp h c hc
      rw [ht, hs, List.nil_append]
    rw [h1, h2]

/-- Witness for C8 (amended): "AA1" has only a trailing digit, so the code
and the spec's trailing-only removal agree on it. -/
theorem claim_C8_witness :
    strip_stress_markers "AA1" = strip_markers_spec "AA1" :=
  (claim_C8_amended "AA1").2 (by decide)

/-- The scores of the records that survive the valid_matches filter are
exactly the scores of the diagonal (match/substitution) pairs, provided no
symbol of a diagonal pair collides with the "GAP" / "---" sentinels: gap
records always show "---" on their gap side and are dropped, and
sentinel-free diagonal records are always kept. -/
theorem validScores_of_noSentinel (pairs : List AlignedPair)
    (h : ∀ p ∈ pairs, pairNoSentinel p = true) :
    (valid_matches (mkMatches (pairs.map toTuple))).map MatchRecord.score =
      diag_scores pairs := by
  induction pairs with
  | nil => rfl
  | cons p ps ih =>
    have hp : pairNoSentinel p = true := h p (List.mem_cons_self p ps)
    have hps : ∀ q ∈ ps, pairNoSentinel q = true :=
      fun q hq => h q (List.mem_cons_of_mem p hq)
    have ihs := ih hps
    cases p with
    | diag a r s =>
      simp only [pairNoSentinel, Bool.and_eq_true, Bool.not_eq_true',
        beq_eq_false_iff_ne] at hp
      obtain ⟨⟨⟨ha1, ha2⟩, hr1⟩, hr2⟩ := hp
      have hrec : mkRecord (toTuple (.diag a r s)) =
          ⟨a, r, (!(a == "GAP")) && (!(r == "GAP")) && decide (s > 7/10), s⟩ := by
        simp [mkRecord, toTuple, ha1, hr1]
      have hstep :
          valid_matches (mkMatches ((AlignedPair.diag a r s :: ps).map toTuple)) =
            mkRecord (toTuple (.diag a r s)) ::
              valid_matches (mkMatches (ps.map toTuple)) := by
        simp only [List.map_cons, mkMatches, valid_matches, List.filter_cons]
        rw [hrec]
        simp [ha2, hr2]
      have hds : diag_scores (AlignedPair.diag a r s :: ps) =
          s :: diag_scores ps := by
        simp [diag_scores, List.filterMap_cons, diagScore?]
      rw [hstep, List.map_cons, hrec, hds]
      exact congrArg (List.cons s) ihs
    | insGap a =>
      have hstep :
          valid_matches (mkMatches ((AlignedPair.insGap a :: ps).map toTuple)) =
            valid_matches (mkMatches (ps.map toTuple)) := by
        simp [List.map_cons, mkMatches, valid_matches, List.filter_cons,
          mkRecord, toTuple]
      have hds : diag_scores (AlignedPair.insGap a :: ps) = diag_scores ps := by
        simp [diag_scores, List.filterMap_cons, diagScore?]
      rw [hstep, hds]
      exact ihs
    | delGap r =>
      have hstep :
          valid_matches (mkMatches ((AlignedPair.delGap r :: ps).map toTuple)) =
            valid_matches (mkMatches (ps.map toTuple)) := by
        simp [List.map_cons, mkMatches, valid_matches, List.filter_cons,
          mkRecord, toTuple]
      have hds : diag_scores (AlignedPair.delGap r :: ps) = diag_scores ps := by
        simp [diag_scores, List.filterMap_cons, diagScore?]
      rw [hstep, hds]
      exact ihs

/-- C5 (amended): for every alignment none of whose match/substitution
symbols equals the literal "GAP" or "---" sentinel strings, the overall
score of analyze_pronunciation equals the arithmetic mean of the
similarity scores of the match/substitution pairs only — gaps excluded
from numerator and denominator — and 0 when there is no such pair (the
counterexample shows the restriction is necessary). -/
theorem claim_C5_amended (pairs : List AlignedPair)
    (h : ∀ p ∈ pairs, pairNoSentinel p = true) :
    overall_score (mkMatches (pairs.map toTuple)) = score_spec pairs := by
  have key := validScores_of_noSentinel pairs h
  have hlen : (valid_matches (mkMatches (pairs.map toTuple))).length =
      (diag_scores pairs).length := by
    rw [← key, List.length_map]
  simp only [overall_score, score_spec]
  by_cases hd : diag_scores pairs = []
  · have hv : valid_matches (mkMatches (pairs.map toTuple)) = [] :=
      List.map_eq_nil_iff.mp (by rw [key, hd])
    rw [if_pos hv, if_pos hd]
  · have hv : valid_matches (mkMatches (pairs.map toTuple)) ≠ [] := by
      intro hne
      apply hd
      rw [← key, hne, List.map_nil]
    rw [if_neg hv, if_neg hd, key, hlen]

/-- Witness for C5 (amended) at a sentinel-free alignment with one match
pair and one insertion. -/
theorem claim_C5_witness :
    overall_score (mkMatches
      ([AlignedPair.diag "HH" "HH" 1, AlignedPair.insGap "T"].map toTuple)) =
      score_spec [AlignedPair.diag "HH" "HH" 1, AlignedPair.insGap "T"] :=
  claim_C5_amended [AlignedPair.diag "HH" "HH" 1, AlignedPair.insGap "T"]
    (by decide)

/-- Any symbol has similarity 1.0 with itself: the canonical forms of the
two sides coincide syntactically. -/
theorem sim_self (x : String) : get_alignment_score x x = 1 := by
  simp [get_alignment_score]

/-- One row of the dp matrix is entrywise nonnegative when the previous
row is: every branch of the recurrence adds a nonnegative cost. -/
theorem dpRowF_nonneg (a r : List String) (i : ℕ) (prev : ℕ → ℚ)
    (hprev : ∀ j, 0 ≤ prev j) : ∀ j, 0 ≤ dpRowF a r i prev j := by
  intro j
  induction j with
  | zero =>
    simp only [dpRowF]
    positivity
  | succ j ihj =>
    simp only [dpRowF]
    have h0 := hprev j
    have h1 := hprev (j + 1)
    split_ifs <;> linarith

/-- The whole dp matrix is entrywise nonnegative. -/
theorem dp_nonneg (a r : List String) : ∀ i j, 0 ≤ dp a r i j := by
  intro i
  induction i with
  | zero =>
    intro j
    simp only [dp]
    positivity
  | succ i ih => exact dpRowF_nonneg a r i (dp a r i) ih

/-- The inner-cell recurrence of the dp matrix, written with dp itself on
both sides (the left move is the cell of the same row computed just
before). -/
theorem dp_succ_succ (a r : List String) (i j : ℕ) :
    dp a r (i + 1) (j + 1) =
      (if dp a r i j +
            (if get_alignment_score (a.getD i "") (r.getD j "") > 7/10
              then 0 else 1) ≤ dp a r i (j + 1) + 4/5 ∧
          dp a r i j +
            (if get_alignment_score (a.getD i "") (r.getD j "") > 7/10
              then 0 else 1) ≤ dp a r (i + 1) j + 4/5
        then dp a r i j +
            (if get_alignment_score (a.getD i "") (r.getD j "") > 7/10
              then 0 else 1)
        else if dp a r i (j + 1) + 4/5 ≤ dp a r (i + 1) j + 4/5
          then dp a r i (j + 1) + 4/5
          else dp a r (i + 1) j + 4/5) := rfl

/-- Aligning a sequence against itself costs nothing on the main diagonal:
every diagonal step is a free perfect match. -/
theorem dp_diag_self (S : List String) : ∀ i, dp S S i i = 0 := by
  intro i
  induction i with
  | zero =>
    simp only [dp]
    norm_num
  | succ i ih =>
    rw [dp_succ_succ, sim_self]
    rw [if_pos (by norm_num : (1 : ℚ) > 7/10), ih]
    have h1 := dp_nonneg S S i (i + 1)
    have h2 := dp_nonneg S S (i + 1) i
    rw [if_pos ⟨by linarith, by linarith⟩]
    norm_num

/-- On the main diagonal (away from the borders) the stored backpointer is
the diagonal choice 0: the free perfect match beats both gap moves. -/
theorem bp_diag_self (S : List String) (i : ℕ) : bp S S (i + 1) (i + 1) = 0 := by
  unfold bp
  rw [if_neg (by omega : ¬(i + 1 = 0 ∨ i + 1 = 0))]
  simp only [Nat.add_sub_cancel, sim_self]
  rw [if_pos (by norm_num : (1 : ℚ) > 7/10), dp_diag_self]
  have h1 := dp_nonneg S S i (i + 1)
  have h2 := dp_nonneg S S (i + 1) i
  rw [if_pos ⟨by linarith, by linarith⟩]

/-- Reading the bp matrix at an in-range diagonal cell succeeds and yields
the pure matrix entry. -/
theorem npBp_diag (S : List String) (k : ℕ) (hk : k ≤ S.length) :
    npBp S S (k : ℤ) (k : ℤ) = some (bp S S k k) := by
  unfold npBp npWrap
  have hin : (0 : ℤ) ≤ (k : ℤ) ∧ (k : ℤ) < ((S.length + 1 : ℕ) : ℤ) := by
    constructor
    · positivity
    · exact_mod_cast Nat.lt_succ_of_le hk
  rw [if_pos hin]
  simp [Int.toNat_natCast]

/-- Backtracking from a diagonal cell (k, k) of the self-alignment yields
the identity pairs of the first k symbols, prepended to the accumulator,
whenever the budget covers the k remaining steps. -/
theorem backtrack_diag (S : List String) :
    ∀ k fuel acc, k ≤ S.length → k + 1 ≤ fuel →
      backtrackLoop S S fuel (k : ℤ) (k : ℤ) acc =
        .ok (((S.take k).map (fun x => AlignedPair.diag x x 1)) ++ acc) := by
  intro k
  induction k with
  | zero =>
    intro fuel acc _ hf
    obtain ⟨f, rfl⟩ : ∃ f, fuel = f + 1 := ⟨fuel - 1, by omega⟩
    simp [backtrackLoop]
  | succ k ih =>
    intro fuel acc hk hf
    obtain ⟨f, rfl⟩ : ∃ f, fuel = f + 1 := ⟨fuel - 1, by omega⟩
    have hkpos : ((k + 1 : ℕ) : ℤ) > 0 := by positivity
    have hbp : npBp S S ((k + 1 : ℕ) : ℤ) ((k + 1 : ℕ) : ℤ) = some 0 := by
      rw [npBp_diag S (k + 1) hk, bp_diag_self]
    have hsub : ((k + 1 : ℕ) : ℤ) - 1 = (k : ℤ) := by push_cast; ring
    rw [backtrackLoop]
    rw [if_pos (Or.inl hkpos), if_pos ⟨hkpos, hkpos, hbp⟩, hsub,
      Int.toNat_natCast]
    show backtrackLoop S S f ((k : ℕ) : ℤ) ((k : ℕ) : ℤ)
      (AlignedPair.diag (S.getD k "") (S.getD k "")
        (get_alignment_score (S.getD k "") (S.getD k "")) :: acc) = _
    rw [sim_self]
    rw [ih f (AlignedPair.diag (S.getD k "") (S.getD k "") 1 :: acc)
      (by omega) (by omega)]
    have hklt : k < S.length := by omega
    have htake : S.take (k + 1) =
        S.take k ++ [S.getD k ""] := by
      rw [List.take_succ]
      congr 1
      rw [List.getElem?_eq_getElem hklt]
      simp [List.getD, List.getElem?_eq_getElem hklt]
    rw [htake]
    simp [List.map_append]

/-- On a self-alignment of symbols distinct from the "GAP" sentinel, the
per-position records show both symbols, carry score 1 and are flagged as
matches. -/
theorem mkMatches_id (S : List String) (hm : ∀ x ∈ S, x ≠ "GAP") :
    mkMatches ((S.map (fun x => AlignedPair.diag x x 1)).map toTuple) =
      S.map (fun x => ⟨x, x, true, 1⟩) := by
  unfold mkMatches
  rw [List.map_map, List.map_map]
  apply List.map_congr_left
  intro x hx
  have h := hm x hx
  simp [mkRecord, toTuple, h, (by norm_num : (7 : ℚ)/10 < 1)]

/-- C6: aligning a non-empty sequence of mapped canonical symbols against
itself yields an alignment made of match/substitution pairs only (one
identity pair per symbol, each with similarity 1.0 and no gap pair), every
record is flagged as a match, and the overall score is 1. -/
theorem claim_C6_identity (S : List String) (hne : S ≠ [])
    (hm : ∀ x ∈ S, x ∈ cmu_values) :
    align_tagged S S = .ok (S.map (fun x => AlignedPair.diag x x 1)) ∧
    (mkMatches ((S.map (fun x => AlignedPair.diag x x 1)).map toTuple)).all
      (fun m => m.matched) = true ∧
    overall_score
      (mkMatches ((S.map (fun x => AlignedPair.diag x x 1)).map toTuple)) = 1 := by
  have hsent : ∀ y ∈ cmu_values, y ≠ "GAP" ∧ y ≠ "---" := by decide
  have hgap : ∀ x ∈ S, x ≠ "GAP" := fun x hx => (hsent x (hm x hx)).1
  have hdash : ∀ x ∈ S, x ≠ "---" := fun x hx => (hsent x (hm x hx)).2
  have hrecords := mkMatches_id S hgap
  refine ⟨?_, ?_, ?_⟩
  · unfold align_tagged
    rw [backtrack_diag S S.length
        (S.length + 2 * S.length + 2) [] le_rfl (by omega)]
    rw [List.take_length, List.append_nil]
  · rw [hrecords, List.all_eq_true]
    intro m hmem
    obtain ⟨x, hx, rfl⟩ := List.mem_map.mp hmem
    rfl
  · rw [hrecords]
    have hvalid : valid_matches
        (S.map (fun x => (⟨x, x, true, 1⟩ : MatchRecord))) =
          S.map (fun x => ⟨x, x, true, 1⟩) := by
      unfold valid_matches
      rw [List.filter_eq_self]
      intro m hmem
      obtain ⟨x, hx, rfl⟩ := List.mem_map.mp hmem
      have h2 := hdash x hx
      simp [h2]
    have hnil : S.map (fun x => (⟨x, x, true, 1⟩ : MatchRecord)) ≠ [] := by
      intro hn
      exact hne (List.map_eq_nil_iff.mp hn)
    simp only [overall_score, hvalid]
    rw [if_neg hnil]
    rw [List.map_map]
    have hconst : (MatchRecord.score ∘ fun x => (⟨x, x, true, 1⟩ : MatchRecord)) =
        fun _ => (1 : ℚ) := rfl
    rw [hconst, List.map_const', List.sum_replicate, List.length_map]
    have hlen : (S.length : ℚ) ≠ 0 := by
      have : S.length ≠ 0 := fun h0 => hne (List.length_eq_zero.mp h0)
      exact_mod_cast this
    rw [nsmul_eq_mul, mul_one, div_self hlen]

/-- Witness for C6 at the concrete mapped sequence ["HH", "EH", "T"]. -/
theorem claim_C6_witness :
    align_tagged ["HH", "EH", "T"] ["HH", "EH", "T"] =
      .ok ((["HH", "EH", "T"] : List String).map
        (fun x => AlignedPair.diag x x 1)) ∧
    (mkMatches (((["HH", "EH", "T"] : List String).map
        (fun x => AlignedPair.diag x x 1)).map toTuple)).all
      (fun m => m.matched) = true ∧
    overall_score (mkMatches (((["HH", "EH", "T"] : List String).map
        (fun x => AlignedPair.diag x x 1)).map toTuple)) = 1 :=
  claim_C6_identity ["HH", "EH", "T"] (by decide) (by decide)

end PronMetrics
